import Mathlib

/-!
Verification of the batch image-generation component (`src/app.component.ts`,
class `AppComponent`) against its natural-language specification.

The component is shallowly embedded: the mutable Angular signals become the
fields of `AppState`, the asynchronous Gemini service becomes an explicit
`Client` function returning `Except`, and `generateImages` / `downloadImage` /
`downloadAllAsZip` become pure state-transforming functions.  JavaScript
string primitives (trim, split, toLowerCase, the two regex replaces) are
modelled character-by-character with structurally recursive functions so that
every definition evaluates on concrete inputs.
-/

namespace GenImg

/-! ### JavaScript string primitives -/

/-- Whitespace in the sense of the JavaScript regex class and of
String.prototype.trim, restricted to the ASCII whitespace characters
(space, tab, newline, carriage return, vertical tab, form feed). -/
def isJsSpace (c : Char) : Bool :=
  c == ' ' || c == '\t' || c == '\n' || c == '\r' ||
  c == Char.ofNat 11 || c == Char.ofNat 12

/-- Character-level trim: drop whitespace from both ends. -/
def trimChars (l : List Char) : List Char :=
  ((l.dropWhile isJsSpace).reverse.dropWhile isJsSpace).reverse

/-- Model of JavaScript String.prototype.trim. -/
def jsTrim (s : String) : String := ⟨trimChars s.data⟩

/-- Character-level split on a separator character, JavaScript
String.prototype.split semantics: the empty string yields one empty field,
adjacent separators yield empty fields. -/
def splitChars (sep : Char) : List Char → List (List Char)
  | [] => [[]]
  | c :: cs =>
    match splitChars sep cs with
    | [] => [[]]
    | l :: ls => if c == sep then [] :: l :: ls else (c :: l) :: ls

/-- Model of JavaScript s.split(sep) for a single-character separator. -/
def jsSplit (sep : Char) (s : String) : List String :=
  (splitChars sep s.data).map fun l => ⟨l⟩

/-- ASCII lower-casing of one character, modelling the effect of
String.prototype.toLowerCase on the characters the sanitizer can keep. -/
def jsToLowerChar (c : Char) : Char := c.toLower

/-- The character class kept by the sanitizer's first regex replace:
everything outside it is deleted (source: replace of the class complement
of lowercase letters, digits, whitespace and hyphen, by the empty string). -/
def keepChar (c : Char) : Bool :=
  ('a' ≤ c && c ≤ 'z') || ('0' ≤ c && c ≤ '9') || isJsSpace c || c == '-'

/-- The sanitizer's second regex replace: each maximal run of whitespace
becomes a single underscore. -/
def collapseWs : List Char → List Char
  | [] => []
  | [c] => if isJsSpace c then ['_'] else [c]
  | c :: c2 :: cs =>
    if isJsSpace c then
      if isJsSpace c2 then collapseWs (c2 :: cs)
      else '_' :: collapseWs (c2 :: cs)
    else c :: collapseWs (c2 :: cs)

/-! ### Data model (types from app.component.ts) -/

/-- In the source, AspectRatio is a string-literal union type imported from
the Gemini service module; it erases to a plain string. -/
abbrev AspectRatio := String

/-- In the source, ImageModel is a string-literal union type imported from
the Gemini service module; it erases to a plain string. -/
abbrev ImageModel := String

/-- type GenerationStatus from app.component.ts. -/
inductive GenerationStatus where
  | idle
  | loading
  | success
  | error
deriving DecidableEq, Repr

/-- interface ImageGenerationResult from app.component.ts.  The optional
fields become Option. -/
structure ImageGenerationResult where
  prompt : String
  status : GenerationStatus
  images : Option (List String) := none
  error : Option String := none
deriving DecidableEq, Repr

/-- The mutable signals of AppComponent, gathered into one state record. -/
structure AppState where
  prompts : String
  aspectRatio : AspectRatio
  numberOfImages : Nat
  results : List ImageGenerationResult
  isLoading : Bool
  isZipping : Bool
  stylePreset : String
  model : ImageModel
  totalQueueCount : Nat
  completedQueueCount : Nat
  currentPromptIndex : Nat
deriving Repr

/-- A thrown JavaScript value, as discriminated by the catch block:
either an Error instance carrying a message, or any other value. -/
inductive JsError where
  | errorInstance (message : String)
  | nonError
deriving DecidableEq, Repr

/-- The catch block's message extraction: the Error's message when the
thrown value is an Error instance, a generic string otherwise. -/
def jsErrorMessage : JsError → String
  | .errorInstance message => message
  | .nonError => "An unknown error occurred"

/-- The Generation Client (geminiService.generateImage): given the effective
prompt, aspect ratio, image count and model it either returns the encoded
images or fails with a thrown value. -/
abbrev Client := String → AspectRatio → Nat → ImageModel → Except JsError (List String)

/-- One request issued to the Generation Client, recorded for the run trace. -/
structure GenRequest where
  prompt : String
  aspectRatio : AspectRatio
  count : Nat
  model : ImageModel
deriving DecidableEq, Repr

/-! ### Prompt splitter (line 81 of app.component.ts) -/

/-- Source line 81: trim the raw input, split it on newlines, and keep the
lines whose own trim is non-empty.  Note that the kept lines are NOT
themselves trimmed. -/
def promptsToProcess (raw : String) : List String :=
  (jsSplit '\n' (jsTrim raw)).filter fun p => jsTrim p != ""

/-- A second splitter following the specification's words instead of the
source: trim outer whitespace, split on newline boundaries, trim each line,
discard lines that are empty after trimming. -/
def specPromptSplitter (raw : String) : List String :=
  ((jsSplit '\n' (jsTrim raw)).map jsTrim).filter fun p => p != ""

/-! ### Filename derivation (downloadImage, lines 153-174) -/

/-- The sanitized prompt: lowercase, delete characters outside the kept
class, collapse whitespace runs to single underscores, truncate to 50
characters (source lines 159-163). -/
def sanitizedPromptOf (prompt : String) : String :=
  ⟨(collapseWs ((prompt.data.map jsToLowerChar).filter keepChar)).take 50⟩

/-- Source line 165: the sanitized prompt (or the fallback when it is
empty) followed by an underscore, the 1-based image index, and ".jpeg". -/
def filenameFor (prompt : String) (index : Nat) : String :=
  (if sanitizedPromptOf prompt == "" then "generated_image"
   else sanitizedPromptOf prompt) ++ "_" ++ toString (index + 1) ++ ".jpeg"

/-- downloadImage: a falsy (empty) image string is a silent no-op (none);
otherwise the browser save is triggered under the derived filename, which
we return as the observable effect. -/
def downloadImage (imageB64 : String) (prompt : String) (index : Nat) :
    Option String :=
  if imageB64 == "" then none else some (filenameFor prompt index)

/-! ### The generation queue (generateImages, lines 75-137) -/

/-- Source line 105: the effective prompt sent to the client.  A non-empty
(truthy) style preset is appended to the prompt after a comma and space. -/
def finalPromptOf (style : String) (prompt : String) : String :=
  if style == "" then prompt else prompt ++ ", " ++ style

/-- Lines 89-92: one loading placeholder per prompt, in order. -/
def initResults (ps : List String) : List ImageGenerationResult :=
  ps.map fun prompt => { prompt := prompt, status := .loading }

/-- Lines 80-92: the state just before the sequential loop starts: busy
flag set, queue counters initialized, Result Store filled with loading
placeholders. -/
def preLoopState (s : AppState) : AppState :=
  { s with
    isLoading := true
    totalQueueCount := (promptsToProcess s.prompts).length
    completedQueueCount := 0
    currentPromptIndex := 0
    results := initResults (promptsToProcess s.prompts) }

/-- Lines 101-128, one iteration of the loop at index i: set the 1-based
current index, build the effective prompt, invoke the client, write the
outcome into slot i of the Result Store, and (finally block) increment the
completed counter.  The issued request is returned alongside the state. -/
def processPrompt (client : Client) (ar : AspectRatio) (n : Nat)
    (style : String) (m : ImageModel) (i : Nat) (prompt : String)
    (s : AppState) : AppState × GenRequest :=
  let finalPrompt := finalPromptOf style prompt
  let s1 := { s with currentPromptIndex := i + 1 }
  let s2 :=
    match client finalPrompt ar n m with
    | .ok imageB64s =>
        let entry : ImageGenerationResult :=
          { prompt := prompt, status := .success, images := some imageB64s }
        { s1 with results := s1.results.set i entry }
    | .error e =>
        let entry : ImageGenerationResult :=
          { prompt := prompt, status := .error, error := some (jsErrorMessage e) }
        { s1 with results := s1.results.set i entry }
  ({ s2 with completedQueueCount := s2.completedQueueCount + 1 },
   { prompt := finalPrompt, aspectRatio := ar, count := n, model := m })

/-- The sequential loop over the prompts, carrying the 0-based index.  The
1-second pacing delay between iterations does not change the state and is
not modelled.  The second component is the trace of client requests, in
issue order. -/
def runQueue (client : Client) (ar : AspectRatio) (n : Nat) (style : String)
    (m : ImageModel) : List String → Nat → AppState → AppState × List GenRequest
  | [], _, s => (s, [])
  | p :: ps, i, s =>
    let step := processPrompt client ar n style m i p s
    let rest := runQueue client ar n style m ps (i + 1) step.1
    (rest.1, step.2 :: rest.2)

/-- generateImages (lines 75-137): guard against re-entry and blank input,
snapshot the configuration, run the sequential loop, clear the busy flag.
The second component is the trace of Generation Client requests issued. -/
def generateImages (client : Client) (s : AppState) :
    AppState × List GenRequest :=
  if s.isLoading || jsTrim s.prompts == "" then (s, [])
  else
    let run := runQueue client s.aspectRatio s.numberOfImages s.stylePreset
      s.model (promptsToProcess s.prompts) 0 (preLoopState s)
    ({ run.1 with isLoading := false }, run.2)

/-! ### Archive export (downloadAllAsZip, lines 176-213) -/

/-- Line 182's filter: successful entries that carry at least one image. -/
def successFilter (r : ImageGenerationResult) : Bool :=
  r.status == .success && !(r.images.getD []).isEmpty

/-- JSZip's zip.file: adding a name that already exists replaces that
entry in place; otherwise the file is appended. -/
def zipFileAdd (files : List (String × String)) (name : String)
    (data : String) : List (String × String) :=
  if files.any (fun f => f.1 == name) then
    files.map fun f => if f.1 == name then (name, data) else f
  else files ++ [(name, data)]

/-- Lines 187-201: the inner loop over one result's images.  The payload is
the part after the first comma of the data URL; a missing or empty payload
is skipped.  The filename repeats the sanitization of downloadImage with
the per-prompt image index. -/
def addImages (prompt : String) : Nat → List String → List (String × String) →
    List (String × String)
  | _, [], files => files
  | i, imageB64 :: rest, files =>
    let files2 :=
      match (jsSplit ',' imageB64)[1]? with
      | none => files
      | some base64Data =>
          if base64Data == "" then files
          else zipFileAdd files (filenameFor prompt i) base64Data
    addImages prompt (i + 1) rest files2

/-- Lines 181-202: the archive contents built from the Result Store. -/
def buildZip (results : List ImageGenerationResult) : List (String × String) :=
  (results.filter successFilter).foldl
    (fun files r => addImages r.prompt 0 (r.images.getD []) files) []

/-- Whether the asynchronous archive finalization (zip.generateAsync and
saveAs) succeeds or rejects with a message. -/
inductive ZipGenOutcome where
  | ok
  | fail (msg : String)
deriving DecidableEq, Repr

/-- The observable effect of one downloadAllAsZip call. -/
inductive ZipAction where
  | skipped
  | saved (files : List (String × String)) (name : String)
  | loggedError (msg : String)
deriving DecidableEq, Repr

/-- downloadAllAsZip (lines 176-213): single-flight guard on isZipping;
build the archive from the Result Store; on success save it under the
fixed name, on failure log the error (the catch block swallows it); the
finally block always clears the flag. -/
def downloadAllAsZip (s : AppState) (gen : ZipGenOutcome) :
    AppState × ZipAction :=
  if s.isZipping then (s, .skipped)
  else
    let s1 := { s with isZipping := true }
    let files := buildZip s1.results
    let act : ZipAction :=
      match gen with
      | .ok => .saved files "generated_images.zip"
      | .fail msg => .loggedError msg
    ({ s1 with isZipping := false }, act)

/-! ### Progress percentage (lines 67-71) -/

/-- progressPercentage: 0 when the total is 0, otherwise
completed / total * 100, over the rationals (the source computes with
JavaScript numbers; the batch sizes involved are exact). -/
def progressPercentage (completedQueueCount totalQueueCount : Nat) : ℚ :=
  if totalQueueCount = 0 then 0
  else ((completedQueueCount : ℚ) / (totalQueueCount : ℚ)) * 100

/-! ### Characterizations and concrete instances used by the theorems -/

/-- The result entry the loop writes for a prompt, as a function of the
client's outcome (success with the returned images, or error with the
extracted message). -/
def entryFor (prompt : String) (out : Except JsError (List String)) :
    ImageGenerationResult :=
  match out with
  | .ok imageB64s =>
      { prompt := prompt, status := .success, images := some imageB64s }
  | .error e =>
      { prompt := prompt, status := .error, error := some (jsErrorMessage e) }

/-- The request the loop issues for a prompt under a configuration. -/
def reqFor (style : String) (ar : AspectRatio) (n : Nat) (m : ImageModel)
    (prompt : String) : GenRequest :=
  { prompt := finalPromptOf style prompt, aspectRatio := ar, count := n,
    model := m }

/-- The client of the spec's worked example: succeeds on "a cat" with one
data URL, fails on anything else with an Error whose message is
"quota exceeded". -/
def c1Client : Client := fun prompt _ _ _ =>
  if prompt == "a cat" then .ok ["data:image/jpeg;base64,AAA"]
  else .error (.errorInstance "quota exceeded")

/-- The component state of the spec's worked example: batch "a cat\na dog",
aspect ratio 1:1, one image per prompt, no style preset, flash model, idle. -/
def c1State : AppState :=
  { prompts := "a cat\na dog", aspectRatio := "1:1", numberOfImages := 1,
    results := [], isLoading := false, isZipping := false, stylePreset := "",
    model := "gemini-2.5-flash-image", totalQueueCount := 0,
    completedQueueCount := 0, currentPromptIndex := 0 }

/-- A generic concrete client used to instantiate the universally
quantified theorems: succeeds on every prompt with one data URL. -/
def wClient : Client := fun _ _ _ _ => .ok ["data:image/jpeg;base64,AAA"]

/-- A generic concrete idle state with a one-prompt batch, used to
instantiate the universally quantified theorems. -/
def wState : AppState :=
  { prompts := "a cat", aspectRatio := "1:1", numberOfImages := 1,
    results := [], isLoading := false, isZipping := false, stylePreset := "",
    model := "gemini-2.5-flash-image", totalQueueCount := 0,
    completedQueueCount := 0, currentPromptIndex := 0 }

/-- wState with the busy flag set, as if a batch were already running. -/
def wBusyState : AppState := { wState with isLoading := true }

/-- A client that fails on every prompt with a thrown non-Error value. -/
def wFailClient : Client := fun _ _ _ _ => .error .nonError

/-- A Result Store with two distinct successful prompts that sanitize to
the same filename stem "cat". -/
def c10Results : List ImageGenerationResult :=
  [ { prompt := "cat!", status := .success,
      images := some ["data:image/jpeg;base64,AAA"] },
    { prompt := "cat?", status := .success,
      images := some ["data:image/jpeg;base64,BBB"] } ]

/-! ### Helper lemmas about the loop -/

theorem processPrompt_eq (client : Client) (ar : AspectRatio) (n : Nat)
    (style : String) (m : ImageModel) (i : Nat) (prompt : String)
    (s : AppState) :
    processPrompt client ar n style m i prompt s
      = ({ s with
            currentPromptIndex := i + 1,
            completedQueueCount := s.completedQueueCount + 1,
            results := s.results.set i
              (entryFor prompt (client (finalPromptOf style prompt) ar n m)) },
         reqFor style ar n m prompt) := by
  cases h : client (finalPromptOf style prompt) ar n m <;>
    simp only [processPrompt, h, entryFor, reqFor]

theorem runQueue_fst_completed (client : Client) (ar : AspectRatio) (n : Nat)
    (style : String) (m : ImageModel) (ps : List String) :
    ∀ (i0 : Nat) (s : AppState),
      ((runQueue client ar n style m ps i0 s).1).completedQueueCount
        = s.completedQueueCount + ps.length := by
  induction ps with
  | nil => intro i0 s; rfl
  | cons p ps ih =>
    intro i0 s
    simp only [runQueue, ih, processPrompt_eq, List.length_cons]
    omega

theorem runQueue_fst_isLoading (client : Client) (ar : AspectRatio) (n : Nat)
    (style : String) (m : ImageModel) (ps : List String) :
    ∀ (i0 : Nat) (s : AppState),
      ((runQueue client ar n style m ps i0 s).1).isLoading = s.isLoading := by
  induction ps with
  | nil => intro i0 s; rfl
  | cons p ps ih =>
    intro i0 s
    simp only [runQueue, ih, processPrompt_eq]

theorem runQueue_fst_total (client : Client) (ar : AspectRatio) (n : Nat)
    (style : String) (m : ImageModel) (ps : List String) :
    ∀ (i0 : Nat) (s : AppState),
      ((runQueue client ar n style m ps i0 s).1).totalQueueCount
        = s.totalQueueCount := by
  induction ps with
  | nil => intro i0 s; rfl
  | cons p ps ih =>
    intro i0 s
    simp only [runQueue, ih, processPrompt_eq]

theorem list_take_set_succ {α : Type} :
    ∀ (l : List α) (i : Nat) (e : α), i < l.length →
      (l.set i e).take (i + 1) = l.take i ++ [e]
  | _ :: _, 0, _, _ => rfl
  | a :: as, i + 1, e, h => by
    have hi : i < as.length := by simpa using h
    have := list_take_set_succ as i e hi
    simp [List.set, List.take, this]
  | [], i, e, h => absurd h (by simp)

theorem runQueue_fst_results (client : Client) (ar : AspectRatio) (n : Nat)
    (style : String) (m : ImageModel) (ps : List String) :
    ∀ (i0 : Nat) (s : AppState), s.results.length = i0 + ps.length →
      (runQueue client ar n style m ps i0 s).1.results
        = s.results.take i0
          ++ ps.map fun p =>
              entryFor p (client (finalPromptOf style p) ar n m) := by
  induction ps with
  | nil =>
    intro i0 s h
    simp only [List.length_nil, Nat.add_zero] at h
    simp only [runQueue, List.map_nil, List.append_nil]
    exact (List.take_of_length_le (by omega)).symm
  | cons p ps ih =>
    intro i0 s h
    simp only [runQueue, processPrompt_eq]
    rw [ih]
    · rw [list_take_set_succ s.results i0 _ (by simp at h ⊢; omega)]
      simp
    · simp at h ⊢
      omega

theorem runQueue_snd (client : Client) (ar : AspectRatio) (n : Nat)
    (style : String) (m : ImageModel) (ps : List String) :
    ∀ (i0 : Nat) (s : AppState),
      (runQueue client ar n style m ps i0 s).2
        = ps.map (reqFor style ar n m) := by
  induction ps with
  | nil => intro i0 s; rfl
  | cons p ps ih =>
    intro i0 s
    simp only [runQueue, ih, processPrompt_eq, List.map_cons]

theorem entryFor_prompt (p : String) (out : Except JsError (List String)) :
    (entryFor p out).prompt = p := by
  cases out <;> rfl

theorem generateImages_run (client : Client) (s : AppState)
    (h1 : s.isLoading = false) (h2 : ¬ jsTrim s.prompts = "") :
    generateImages client s
      = ({ (runQueue client s.aspectRatio s.numberOfImages s.stylePreset
              s.model (promptsToProcess s.prompts) 0 (preLoopState s)).1 with
            isLoading := false },
         (runQueue client s.aspectRatio s.numberOfImages s.stylePreset
              s.model (promptsToProcess s.prompts) 0 (preLoopState s)).2) := by
  unfold generateImages
  rw [if_neg (by simp [h1, h2])]

/-! ### Claim theorems -/

set_option maxRecDepth 8000

/-- C1: for the batch "a cat\na dog" with aspect ratio 1:1, image count 1,
empty style preset, model gemini-2.5-flash-image, and a client that returns
one data URL for "a cat" and fails with message "quota exceeded" for
"a dog", the final Result Store holds exactly the success entry for "a cat"
and the error entry for "a dog". -/
theorem claim_C1_worked_example :
    (generateImages c1Client c1State).1.results =
      [{ prompt := "a cat", status := .success,
         images := some ["data:image/jpeg;base64,AAA"], error := none },
       { prompt := "a dog", status := .error, images := none,
         error := some "quota exceeded" }] := by
  decide

/-- C2 counterexample: the claim says each kept line is trimmed, but the
source keeps the line verbatim.  On input "a\n b" the code produces
["a", " b"] while the spec's description produces ["a", "b"]. -/
theorem claim_C2_splitter_counterexample :
    promptsToProcess "a\n b" = ["a", " b"]
    ∧ specPromptSplitter "a\n b" = ["a", "b"]
    ∧ ¬ promptsToProcess "a\n b" = specPromptSplitter "a\n b" := by
  decide

/-- C2 amended: the prompt list equals: trim the outer whitespace, split on
newline boundaries, and discard lines that are whitespace-only — surviving
lines are kept untrimmed.  Every element is non-empty and not
whitespace-only, and the relative order of the kept lines is preserved
(the output is a sublist of the split lines). -/
theorem claim_C2_splitter_amended (raw : String) :
    promptsToProcess raw
      = (jsSplit '\n' (jsTrim raw)).filter (fun p => jsTrim p != "")
    ∧ (∀ p, p ∈ promptsToProcess raw → ¬ p = "" ∧ ¬ jsTrim p = "")
    ∧ (promptsToProcess raw).Sublist (jsSplit '\n' (jsTrim raw)) := by
  refine ⟨rfl, ?_, List.filter_sublist _⟩
  intro p hp
  have h := List.of_mem_filter hp
  have h2 : ¬ jsTrim p = "" := by simpa using h
  refine ⟨?_, h2⟩
  intro he
  apply h2
  rw [he]
  rfl

theorem claim_C2_splitter_amended_witness :
    ¬ ("a" : String) = "" ∧ ¬ jsTrim "a" = "" :=
  (claim_C2_splitter_amended "a\n b").2.1 "a" (by decide)

/-- C3 counterexample: at completed = 0, total = 0 the percentage is 0,
yet completed equals total — so "equals 100 exactly when completed equals
total" fails as stated. -/
theorem claim_C3_progress_counterexample :
    (0 : Nat) ≤ 0 ∧ (0 : Nat) = 0 ∧ ¬ progressPercentage 0 0 = 100 := by
  refine ⟨Nat.le_refl 0, rfl, ?_⟩
  decide

/-- C3 amended: for 0 ≤ completed ≤ total, the percentage is 0 when total
is 0 and completed/total*100 otherwise; when total is nonzero it equals
100 exactly when completed equals total. -/
theorem claim_C3_progress_amended (completed total : Nat)
    (h : completed ≤ total) :
    (total = 0 → progressPercentage completed total = 0)
    ∧ (¬ total = 0 →
        progressPercentage completed total
          = ((completed : ℚ) / (total : ℚ)) * 100
        ∧ (progressPercentage completed total = 100 ↔ completed = total)) := by
  constructor
  · intro h0
    simp [progressPercentage, h0]
  · intro h0
    have ht : ((total : ℚ)) ≠ 0 := Nat.cast_ne_zero.mpr h0
    refine ⟨by simp [progressPercentage, h0], ?_⟩
    simp only [progressPercentage, h0, if_false, if_neg h0]
    rw [div_mul_eq_mul_div, div_eq_iff ht]
    constructor
    · intro he
      have h100 : ((completed : ℚ)) * 100 = (total : ℚ) * 100 := by
        rw [he, mul_comm]
      have hc := mul_right_cancel₀ (b := (100 : ℚ)) (by norm_num) h100
      exact_mod_cast hc
    · intro he
      rw [he, mul_comm]

theorem claim_C3_progress_amended_witness :
    progressPercentage 2 2 = (((2 : Nat) : ℚ) / ((2 : Nat) : ℚ)) * 100
    ∧ (progressPercentage 2 2 = 100 ↔ (2 : Nat) = 2) :=
  (claim_C3_progress_amended 2 2 (Nat.le_refl 2)).2 (by decide)

/-- C4: a call made while the busy flag is set, or whose prompt text trims
to the empty string, returns the state unchanged (Result Store, busy flag
and queue counters included) and issues no Generation Client request. -/
theorem claim_C4_noop_guard (client : Client) (s : AppState)
    (h : s.isLoading = true ∨ jsTrim s.prompts = "") :
    generateImages client s = (s, []) := by
  unfold generateImages
  rcases h with h | h <;> simp [h]

theorem claim_C4_noop_guard_witness :
    generateImages wClient wBusyState = (wBusyState, []) :=
  claim_C4_noop_guard wClient wBusyState (Or.inl rfl)

/-- C5: downloadImage derives the filename by lowercasing, stripping
characters outside the kept class, collapsing whitespace runs to single
underscores, truncating to 50 characters, defaulting to generated_image
when empty, and appending the 1-based index and ".jpeg"; in particular
"A Cat! @Sunset#" at index 0 gives a_cat_sunset_1.jpeg and empty or
all-symbol prompts give generated_image_1.jpeg. -/
theorem claim_C5_filename_derivation :
    downloadImage "data:image/jpeg;base64,AAA" "A Cat! @Sunset#" 0
      = some "a_cat_sunset_1.jpeg"
    ∧ downloadImage "data:image/jpeg;base64,AAA" "" 0
      = some "generated_image_1.jpeg"
    ∧ downloadImage "data:image/jpeg;base64,AAA" "@#!%" 0
      = some "generated_image_1.jpeg"
    ∧ (∀ (imageB64 prompt : String) (index : Nat), ¬ imageB64 = "" →
        downloadImage imageB64 prompt index
          = some ((if sanitizedPromptOf prompt == "" then "generated_image"
                   else sanitizedPromptOf prompt)
                  ++ "_" ++ toString (index + 1) ++ ".jpeg")) := by
  refine ⟨by decide, by decide, by decide, ?_⟩
  intro b p i hb
  unfold downloadImage filenameFor
  rw [if_neg (by simpa using hb)]

theorem claim_C5_filename_derivation_witness :
    downloadImage "x" "A Cat! @Sunset#" 0
      = some ((if sanitizedPromptOf "A Cat! @Sunset#" == "" then
                "generated_image"
               else sanitizedPromptOf "A Cat! @Sunset#")
              ++ "_" ++ toString (0 + 1) ++ ".jpeg") :=
  claim_C5_filename_derivation.2.2.2 "x" "A Cat! @Sunset#" 0 (by decide)

/-- C6: every request sent to the client carries the effective prompt (the
raw prompt with the snapshotted style preset appended after a comma-space
when the preset is non-empty, the raw prompt otherwise), while the Result
Store always stores the original prompt. -/
theorem claim_C6_style_append (client : Client) (s : AppState)
    (h1 : s.isLoading = false) (h2 : ¬ jsTrim s.prompts = "") :
    (generateImages client s).2
      = (promptsToProcess s.prompts).map
          (reqFor s.stylePreset s.aspectRatio s.numberOfImages s.model)
    ∧ (∀ p, (reqFor s.stylePreset s.aspectRatio s.numberOfImages
        s.model p).prompt
        = if s.stylePreset = "" then p else p ++ ", " ++ s.stylePreset)
    ∧ (generateImages client s).1.results.map ImageGenerationResult.prompt
        = promptsToProcess s.prompts := by
  rw [generateImages_run client s h1 h2]
  refine ⟨?_, ?_, ?_⟩
  · exact runQueue_snd client s.aspectRatio s.numberOfImages s.stylePreset
      s.model (promptsToProcess s.prompts) 0 (preLoopState s)
  · intro p
    by_cases hc : s.stylePreset = "" <;> simp [reqFor, finalPromptOf, hc]
  · show ((runQueue client s.aspectRatio s.numberOfImages s.stylePreset
        s.model (promptsToProcess s.prompts) 0
        (preLoopState s)).1.results).map ImageGenerationResult.prompt
      = promptsToProcess s.prompts
    rw [runQueue_fst_results]
    · rw [List.take_zero, List.nil_append, List.map_map]
      have hcongr : ∀ p ∈ promptsToProcess s.prompts,
          (ImageGenerationResult.prompt ∘ fun p =>
            entryFor p (client (finalPromptOf s.stylePreset p)
              s.aspectRatio s.numberOfImages s.model)) p = id p := by
        intro p _
        simp [Function.comp, entryFor_prompt]
      rw [List.map_congr_left hcongr, List.map_id]
    · simp [preLoopState, initResults]

theorem claim_C6_style_append_witness :
    (generateImages wClient wState).2
      = (promptsToProcess wState.prompts).map
          (reqFor wState.stylePreset wState.aspectRatio
            wState.numberOfImages wState.model) :=
  (claim_C6_style_append wClient wState rfl (by decide)).1

/-- C7: the completed counter starts at 0 when the loop begins, each
resolved prompt increments it by exactly 1 (after k processed prompts it
equals k), and when the busy flag is cleared at the end of the run it
equals the batch size. -/
theorem claim_C7_completed_count (client : Client) (s : AppState)
    (h1 : s.isLoading = false) (h2 : ¬ jsTrim s.prompts = "") :
    (∀ (i : Nat) (p : String) (st : AppState),
      ((processPrompt client s.aspectRatio s.numberOfImages s.stylePreset
          s.model i p st).1).completedQueueCount
        = st.completedQueueCount + 1)
    ∧ (∀ k, k ≤ (promptsToProcess s.prompts).length →
        ((runQueue client s.aspectRatio s.numberOfImages s.stylePreset
            s.model ((promptsToProcess s.prompts).take k) 0
            (preLoopState s)).1).completedQueueCount = k)
    ∧ (generateImages client s).1.completedQueueCount
        = (promptsToProcess s.prompts).length
    ∧ (generateImages client s).1.totalQueueCount
        = (promptsToProcess s.prompts).length
    ∧ (generateImages client s).1.isLoading = false := by
  refine ⟨?_, ?_, ?_, ?_, ?_⟩
  · intro i p st
    rw [processPrompt_eq]
  · intro k hk
    rw [runQueue_fst_completed]
    show (preLoopState s).completedQueueCount
        + ((promptsToProcess s.prompts).take k).length = k
    simp [preLoopState, List.length_take]
    omega
  · rw [generateImages_run client s h1 h2]
    show ((runQueue client s.aspectRatio s.numberOfImages s.stylePreset
        s.model (promptsToProcess s.prompts) 0
        (preLoopState s)).1).completedQueueCount
      = (promptsToProcess s.prompts).length
    rw [runQueue_fst_completed]
    simp [preLoopState]
  · rw [generateImages_run client s h1 h2]
    show ((runQueue client s.aspectRatio s.numberOfImages s.stylePreset
        s.model (promptsToProcess s.prompts) 0
        (preLoopState s)).1).totalQueueCount
      = (promptsToProcess s.prompts).length
    rw [runQueue_fst_total]
    simp [preLoopState]
  · rw [generateImages_run client s h1 h2]

theorem claim_C7_completed_count_witness :
    (generateImages wClient wState).1.completedQueueCount
      = (promptsToProcess wState.prompts).length :=
  (claim_C7_completed_count wClient wState rfl (by decide)).2.2.1

/-- C8: when the client call for the prompt in slot i fails, slot i of the
final Result Store is the error entry whose message is extracted from the
thrown value, with the generic fallback when the thrown value carries no
message. -/
theorem claim_C8_error_entry (client : Client) (s : AppState) (i : Nat)
    (p : String) (e : JsError)
    (h1 : s.isLoading = false) (h2 : ¬ jsTrim s.prompts = "")
    (hp : (promptsToProcess s.prompts)[i]? = some p)
    (he : client (finalPromptOf s.stylePreset p) s.aspectRatio
      s.numberOfImages s.model = .error e) :
    (generateImages client s).1.results[i]?
      = some { prompt := p, status := .error, images := none,
               error := some (jsErrorMessage e) }
    ∧ (e = JsError.nonError →
        jsErrorMessage e = "An unknown error occurred") := by
  constructor
  · rw [generateImages_run client s h1 h2]
    show ((runQueue client s.aspectRatio s.numberOfImages s.stylePreset
        s.model (promptsToProcess s.prompts) 0
        (preLoopState s)).1.results)[i]? = _
    rw [runQueue_fst_results]
    · rw [List.take_zero, List.nil_append, List.getElem?_map, hp]
      simp [he, entryFor]
    · simp [preLoopState, initResults]
  · intro hne
    rw [hne]
    rfl

theorem claim_C8_error_entry_witness :
    (generateImages wFailClient wState).1.results[0]?
      = some { prompt := "a cat", status := .error, images := none,
               error := some (jsErrorMessage JsError.nonError) } :=
  (claim_C8_error_entry wFailClient wState 0 "a cat" JsError.nonError rfl
    (by decide) (by decide) rfl).1

/-- C9: downloadAllAsZip is a no-op while its single-flight flag is set;
otherwise the flag is clear again when the call returns, a finalization
failure is logged (returned as a logged action, never thrown), and a
success saves the built archive under the fixed name — in every case,
including an archive with no eligible images. -/
theorem claim_C9_zip_single_flight (s : AppState) (gen : ZipGenOutcome) :
    (s.isZipping = true → downloadAllAsZip s gen = (s, ZipAction.skipped))
    ∧ (s.isZipping = false →
        (downloadAllAsZip s gen).1.isZipping = false
        ∧ (∀ msg, gen = ZipGenOutcome.fail msg →
            (downloadAllAsZip s gen).2 = ZipAction.loggedError msg)
        ∧ (gen = ZipGenOutcome.ok →
            (downloadAllAsZip s gen).2
              = ZipAction.saved (buildZip s.results) "generated_images.zip")) := by
  constructor
  · intro h
    unfold downloadAllAsZip
    simp [h]
  · intro h
    refine ⟨?_, ?_, ?_⟩
    · unfold downloadAllAsZip
      simp [h]
    · intro msg hm
      unfold downloadAllAsZip
      simp [h, hm]
    · intro hok
      unfold downloadAllAsZip
      simp [h, hok]

theorem claim_C9_zip_single_flight_witness :
    (downloadAllAsZip wState (ZipGenOutcome.fail "boom")).1.isZipping
      = false :=
  ((claim_C9_zip_single_flight wState (ZipGenOutcome.fail "boom")).2 rfl).1

/-- C10: two distinct successful prompts differing only in stripped
characters produce the same archive filename for the same image index, the
later image replaces the earlier one, and the archive holds fewer files
than the number of eligible images. -/
theorem claim_C10_filename_collision :
    ¬ ("cat!" : String) = "cat?"
    ∧ filenameFor "cat!" 0 = filenameFor "cat?" 0
    ∧ buildZip c10Results = [(filenameFor "cat!" 0, "BBB")]
    ∧ ((c10Results.filter successFilter).map
        (fun r => (r.images.getD []).length)).sum = 2
    ∧ (buildZip c10Results).length < 2 := by
  decide

end GenImg
